import Mathlib

/-!
Verification of the Google Pay UPI intent flow script (`src/gpay.js`).

The script is a single-attempt payment controller: a click handler builds a
payment request, probes capability, presents the native payment sheet racing
a 20-minute timer, classifies the outcome and writes a status message, and
re-enables the trigger button.

We embed the script shallowly.  Browser effects (status writes, enabling or
disabling the trigger button, navigation, console logging, calling
`request.abort()`, calling `clearTimeout`) are recorded as an explicit trace
of events.  The behaviour of the browser collaborators (whether
`PaymentRequest` exists, whether construction throws, how the capability
probe and the presentation promise settle) is an explicit environment value,
and the whole click handler is a pure function from that environment to the
trace of events it produces, in the order the event loop runs them.

Ordering of the timeout path.  When the timer fires first and
`request.abort()` succeeds, the W3C Payment Request abort algorithm rejects
the pending `show()` promise with an `AbortError` and resolves the `abort()`
promise within the same task.  The `abort().then` handler is a depth-one
reaction, while the `show()` rejection must propagate through
`.then(...)` before reaching `.catch(...)`, a depth-two reaction; so the
microtask queue runs the abort fulfilment handler (which writes
"Payment timed out.") strictly before the `show()` rejection handler (which
writes "Payment was cancelled."), and the `.finally` handler last.  The
trace below records exactly that order.
-/

namespace GPay

/-- Observable effects of the script, in event-loop order. -/
inductive Event
  | setStatus (message : String) (severity : String)
  | setDisabled (b : Bool)
  | navigate (url : String)
  | consoleLog (s : String)
  | abortCalled
  | clearTimeoutCalled
  deriving DecidableEq, Repr

/-- `const AMOUNT = '1.00'` — fixed amount in INR. -/
def AMOUNT : String := "1.00"

/-- Merchant configuration record (`MERCHANT_CONFIG` fields). -/
structure MerchantConfig where
  pa : String
  pn : String
  mc : String
  tn : String
  deriving DecidableEq, Repr

/-- `const MERCHANT_CONFIG = { pa: ..., pn: ..., mc: ..., tn: ... }`. -/
def MERCHANT_CONFIG : MerchantConfig :=
  { pa := "9110190178@okbizaxis"
    pn := "Ms. Priya Kumari"
    mc := "5977"
    tn := "Payment" }

/-- Decimal digits of `n`, most significant first, with explicit fuel so the
definition is structural.  Empty for `n = 0`; `fuel ≥ n` always gives the
exact digit list. -/
def decimalDigits (fuel n : Nat) : List Nat :=
  match fuel with
  | 0 => []
  | fuel + 1 => if n = 0 then [] else decimalDigits fuel (n / 10) ++ [n % 10]

/-- Decimal digit list actually rendered for `n`: `[0]` for zero, otherwise
its digits most significant first. -/
def digitsRepr (n : Nat) : List Nat :=
  if n = 0 then [0] else decimalDigits n n

/-- Decimal rendering of a natural number, the model of JavaScript number
to string conversion on an integer timestamp (`Date.now()` stringifies in
base ten). -/
def natToString (n : Nat) : String :=
  ⟨(digitsRepr n).map fun d => Char.ofNat (48 + d)⟩

/-- `generateTransactionReferenceID`: `'TXN' + Date.now()`.  The wall clock
reading is the explicit argument `now`. -/
def generateTransactionReferenceID (now : Nat) : String :=
  "TXN" ++ natToString now

/-- ECMA-262 unreserved set of `encodeURIComponent`: ASCII letters, digits,
and `- _ . ! ~ * ' ( )` (written by code point). -/
def uriUnreserved (c : Char) : Bool :=
  (65 ≤ c.toNat && c.toNat ≤ 90) ||
  (97 ≤ c.toNat && c.toNat ≤ 122) ||
  (48 ≤ c.toNat && c.toNat ≤ 57) ||
  (c.toNat ∈ [45, 95, 46, 33, 126, 42, 39, 40, 41])

/-- Upper-case hexadecimal digit character for `n < 16`. -/
def hexDigitChar (n : Nat) : Char :=
  if n < 10 then Char.ofNat (48 + n) else Char.ofNat (55 + n)

/-- `%XX` escape of one byte. -/
def percentEncodeByte (b : Nat) : List Char :=
  [Char.ofNat 37, hexDigitChar (b / 16 % 16), hexDigitChar (b % 16)]

/-- UTF-8 bytes of a code point. -/
def utf8EncodeChar (n : Nat) : List Nat :=
  if n < 128 then [n]
  else if n < 2048 then [192 + n / 64, 128 + n % 64]
  else if n < 65536 then [224 + n / 4096, 128 + n / 64 % 64, 128 + n % 64]
  else [240 + n / 262144, 128 + n / 4096 % 64, 128 + n / 64 % 64, 128 + n % 64]

/-- ECMA-262 `encodeURIComponent`: unreserved characters pass through, every
other character is replaced by the `%XX` escapes of its UTF-8 bytes. -/
def encodeURIComponent (s : String) : String :=
  ⟨(s.data.map fun c =>
      if uriUnreserved c then [c]
      else (utf8EncodeChar c.toNat).map percentEncodeByte |>.flatten).flatten⟩

/-- The deep-link URI built by `handleNotReadyToPay`. -/
def deepLink (now : Nat) : String :=
  "gpay://upi/pay?pa=" ++ encodeURIComponent MERCHANT_CONFIG.pa ++
  "&pn=" ++ encodeURIComponent MERCHANT_CONFIG.pn ++
  "&am=" ++ AMOUNT ++ "&cu=INR&tr=" ++ generateTransactionReferenceID now

/-- `handleNotReadyToPay`: navigate the page to the deep-link URI. -/
def handleNotReadyToPay (now : Nat) : List Event :=
  [.navigate (deepLink now)]

/-- `showStatus(message, type)`: one write to the status slot. -/
def showStatus (message severity : String) : List Event :=
  [.setStatus message severity]

/-- How `paymentResponse.complete('success')` settles, and how `show()`
itself settles: resolution carrying the completion outcome, or rejection
carrying the error name and message. -/
inductive ShowSettle
  | resolved (completeOk : Bool)
  | rejected (errName : String) (errMsg : String)
  deriving DecidableEq, Repr

/-- Behaviour of the `show()` promise relative to the 20-minute timer:
either it settles before the timer fires, or the timer fires first.  In the
latter case `abortOk` tells whether `request.abort()` succeeds (the browser
then rejects `show()` with an `AbortError`); if the abort fails, `late` is
how `show()` eventually settles. -/
inductive ShowOutcome
  | settles (s : ShowSettle)
  | timesOut (abortOk : Bool) (late : ShowSettle)
  deriving DecidableEq, Repr

/-- How `request.canMakePayment()` settles. -/
inductive ProbeOutcome
  | resolves (result : Bool)
  | rejects
  deriving DecidableEq, Repr

/-- The browser-side behaviour of one payment attempt. -/
structure Env where
  /-- Whether `globalThis.PaymentRequest` exists. -/
  hasPaymentRequest : Bool
  /-- `some msg` when `new PaymentRequest(...)` throws with message `msg`. -/
  constructError : Option String
  /-- Outcome of `request.canMakePayment()`. -/
  probe : ProbeOutcome
  /-- Outcome of `request.show()` against the timer. -/
  showOutcome : ShowOutcome
  /-- `Date.now()` reading for this attempt. -/
  now : Nat
  deriving DecidableEq, Repr

/-- `processResponse`: log the response details, call
`paymentResponse.complete('success')`, and report the result. -/
def processResponse (completeOk : Bool) : List Event :=
  [.consoleLog "Payment Response:"] ++
  (if completeOk then showStatus "Payment successful!" "success"
   else [.consoleLog "Error completing payment:"] ++
        showStatus "Error completing payment." "error")

/-- The `request.show().then(...)` fulfilment handler: clear the timer, then
process the response. -/
def showFulfillHandler (completeOk : Bool) : List Event :=
  [.clearTimeoutCalled] ++ processResponse completeOk

/-- The `request.show().catch(...)` rejection handler: clear the timer, then
classify the error by name. -/
def showRejectionHandler (now : Nat) (errName errMsg : String) : List Event :=
  [.clearTimeoutCalled] ++
  (if errName = "NotSupportedError" then handleNotReadyToPay now
   else if errName = "AbortError" then showStatus "Payment was cancelled." "info"
   else [.consoleLog errMsg] ++
        showStatus ("Payment failed: " ++ errMsg) "error")

/-- Events of the handler that `show()` settling runs. -/
def settleEvents (now : Nat) : ShowSettle → List Event
  | .resolved completeOk => showFulfillHandler completeOk
  | .rejected errName errMsg => showRejectionHandler now errName errMsg

/-- `showPaymentUI(request, canMakePayment)`: return silently when the probe
said `false`; otherwise arm the 20-minute timer, call `show()`, and run the
settlement handlers, with `.finally` re-enabling the button last.  On the
timer path the timer callback clears its own handle and calls
`request.abort()`; on abort success the abort fulfilment handler runs before
the `AbortError` rejection handler (see the ordering note in the file
header); on abort failure the abort rejection handler only logs, and the
attempt waits for `show()` to settle on its own. -/
def showPaymentUI (now : Nat) (canMakePayment : Bool) (o : ShowOutcome) : List Event :=
  if !canMakePayment then []
  else
    (match o with
     | .settles s => settleEvents now s
     | .timesOut abortOk late =>
         [.clearTimeoutCalled, .abortCalled] ++
         (if abortOk then
            [.consoleLog "Payment timed out after 20 minutes."] ++
            showStatus "Payment timed out." "error" ++
            settleEvents now (.rejected "AbortError" "The payment request was aborted.")
          else
            [.consoleLog "Unable to abort, user is in the process of paying."] ++
            settleEvents now late)) ++
    [.setDisabled false]

/-- `onBuyClicked`: the click handler driving one attempt. -/
def onBuyClicked (e : Env) : List Event :=
  if !e.hasPaymentRequest then
    [.consoleLog "Web payments are not supported in this browser."] ++
    showStatus "Web payments are not supported in this browser." "error"
  else
    match e.constructError with
    | some msg =>
        [.consoleLog ("Payment Request Error: " ++ msg)] ++
        showStatus ("Payment Request Error: " ++ msg) "error"
    | none =>
        [.consoleLog "Payment Request: request",
         .consoleLog "Payment Request: supportedInstruments",
         .consoleLog "Payment Request: details",
         .setDisabled true] ++
        showStatus "Checking payment availability..." "info" ++
        (match e.probe with
         | .resolves result => showPaymentUI e.now result e.showOutcome
         | .rejects =>
             [.consoleLog "Error calling canMakePayment:"] ++
             showStatus "Error checking payment availability." "error" ++
             [.setDisabled false])

/-- Status writes of a trace, in order. -/
def statusWrites (t : List Event) : List (String × String) :=
  t.filterMap fun e =>
    match e with
    | .setStatus m k => some (m, k)
    | _ => none

/-- Writes to `gpayButton.disabled` in a trace, in order. -/
def disabledWrites (t : List Event) : List Bool :=
  t.filterMap fun e =>
    match e with
    | .setDisabled b => some b
    | _ => none

/-- Navigations in a trace. -/
def navigations (t : List Event) : List String :=
  t.filterMap fun e =>
    match e with
    | .navigate u => some u
    | _ => none

/-- The last status write of a trace, if any. -/
def lastStatus (t : List Event) : Option (String × String) :=
  (statusWrites t).getLast?

/-- The attempt settles in the sense of the spec: an outcome path of
success, cancellation, timeout, fallback or error is reached, i.e. the
request is constructed and the capability probe does not resolve `false`. -/
def settlesAttempt (e : Env) : Prop :=
  e.hasPaymentRequest = true ∧ e.constructError = none ∧
  (e.probe = .rejects ∨ e.probe = .resolves true)

instance (e : Env) : Decidable (settlesAttempt e) := by
  unfold settlesAttempt; infer_instance

/-- Digit value of a most-significant-first digit list. -/
def digitsVal (ds : List Nat) : Nat := ds.foldl (fun a d => 10 * a + d) 0

/-- A concrete attempt in which the timer fires first and the abort
succeeds. -/
def timeoutEnv : Env :=
  { hasPaymentRequest := true
    constructError := none
    probe := .resolves true
    showOutcome := .timesOut true (.resolved true)
    now := 0 }

/-- A concrete attempt in which the user completes the payment in time. -/
def successEnv : Env :=
  { hasPaymentRequest := true
    constructError := none
    probe := .resolves true
    showOutcome := .settles (.resolved true)
    now := 0 }

lemma digitsVal_append_digit (ds : List Nat) (d : Nat) :
    digitsVal (ds ++ [d]) = 10 * digitsVal ds + d := by
  simp [digitsVal, List.foldl_append]

lemma decimalDigits_val (fuel : Nat) : ∀ n : Nat, n ≤ fuel →
    digitsVal (decimalDigits fuel n) = n := by
  induction fuel with
  | zero =>
      intro n hn
      have : n = 0 := Nat.le_zero.mp hn
      subst this
      simp [decimalDigits, digitsVal]
  | succ fuel ih =>
      intro n hn
      by_cases h0 : n = 0
      · subst h0; simp [decimalDigits, digitsVal]
      · have hdiv : n / 10 ≤ fuel := by
          have : n / 10 < n := Nat.div_lt_self (Nat.pos_of_ne_zero h0) (by omega)
          omega
        rw [decimalDigits]
        simp only [h0, if_false]
        rw [digitsVal_append_digit, ih _ hdiv]
        omega

lemma decimalDigits_lt (fuel : Nat) : ∀ n : Nat, ∀ d ∈ decimalDigits fuel n, d < 10 := by
  induction fuel with
  | zero => intro n d hd; simp [decimalDigits] at hd
  | succ fuel ih =>
      intro n d hd
      rw [decimalDigits] at hd
      by_cases h0 : n = 0
      · simp [h0] at hd
      · simp only [h0, if_false, List.mem_append, List.mem_singleton] at hd
        rcases hd with hd | hd
        · exact ih _ _ hd
        · subst hd; exact Nat.mod_lt _ (by omega)

lemma digitsVal_digitsRepr (n : Nat) : digitsVal (digitsRepr n) = n := by
  by_cases h0 : n = 0
  · subst h0; simp [digitsRepr, digitsVal]
  · simp only [digitsRepr, h0, if_false]
    exact decimalDigits_val n n le_rfl

lemma digitsRepr_lt (n : Nat) : ∀ d ∈ digitsRepr n, d < 10 := by
  by_cases h0 : n = 0
  · subst h0; simp [digitsRepr]
  · simp only [digitsRepr, h0, if_false]
    exact decimalDigits_lt n n

lemma digitChar_inj (d e : Nat) (hd : d < 10) (he : e < 10)
    (h : Char.ofNat (48 + d) = Char.ofNat (48 + e)) : d = e := by
  interval_cases d <;> interval_cases e <;> first | rfl | (exfalso; revert h; decide)

lemma digitCharMap_inj : ∀ (l1 l2 : List Nat), (∀ d ∈ l1, d < 10) → (∀ d ∈ l2, d < 10) →
    l1.map (fun d => Char.ofNat (48 + d)) = l2.map (fun d => Char.ofNat (48 + d)) →
    l1 = l2 := by
  intro l1
  induction l1 with
  | nil => intro l2 _ _ h; cases l2 <;> simp_all
  | cons a l ih =>
      intro l2 h1 h2 h
      cases l2 with
      | nil => simp at h
      | cons b l2tl =>
          simp only [List.map_cons, List.cons.injEq] at h
          have hab : a = b := digitChar_inj a b (h1 a (by simp)) (h2 b (by simp)) h.1
          have htl : l = l2tl :=
            ih l2tl (fun d hd => h1 d (by simp [hd])) (fun d hd => h2 d (by simp [hd])) h.2
          simp [hab, htl]

lemma natToString_inj (m n : Nat) (h : natToString m = natToString n) : m = n := by
  have hdata : (digitsRepr m).map (fun d => Char.ofNat (48 + d)) =
      (digitsRepr n).map (fun d => Char.ofNat (48 + d)) := congrArg String.data h
  have := digitCharMap_inj _ _ (digitsRepr_lt m) (digitsRepr_lt n) hdata
  calc m = digitsVal (digitsRepr m) := (digitsVal_digitsRepr m).symm
    _ = digitsVal (digitsRepr n) := by rw [this]
    _ = n := digitsVal_digitsRepr n



lemma onBuyClicked_probe_true (e : Env) (h1 : e.hasPaymentRequest = true)
    (h2 : e.constructError = none) (h3 : e.probe = .resolves true) :
    onBuyClicked e =
      [.consoleLog "Payment Request: request",
       .consoleLog "Payment Request: supportedInstruments",
       .consoleLog "Payment Request: details", .setDisabled true,
       .setStatus "Checking payment availability..." "info"] ++
      showPaymentUI e.now true e.showOutcome := by
  rw [onBuyClicked]
  simp [h1, h2, h3, showStatus]

lemma showPaymentUI_settles (now : Nat) (s : ShowSettle) :
    showPaymentUI now true (.settles s) =
      settleEvents now s ++ [.setDisabled false] := rfl

lemma showPaymentUI_timesOut_abortOk (now : Nat) (late : ShowSettle) :
    showPaymentUI now true (.timesOut true late) =
      [.clearTimeoutCalled, .abortCalled,
       .consoleLog "Payment timed out after 20 minutes.",
       .setStatus "Payment timed out." "error", .clearTimeoutCalled,
       .setStatus "Payment was cancelled." "info", .setDisabled false] := rfl

lemma showPaymentUI_timesOut_abortFail (now : Nat) (late : ShowSettle) :
    showPaymentUI now true (.timesOut false late) =
      [.clearTimeoutCalled, .abortCalled,
       .consoleLog "Unable to abort, user is in the process of paying."] ++
      settleEvents now late ++ [.setDisabled false] := rfl

lemma disabledWrites_append (s t : List Event) :
    disabledWrites (s ++ t) = disabledWrites s ++ disabledWrites t := by
  simp [disabledWrites, List.filterMap_append]

lemma statusWrites_append (s t : List Event) :
    statusWrites (s ++ t) = statusWrites s ++ statusWrites t := by
  simp [statusWrites, List.filterMap_append]

lemma disabledWrites_settleEvents (now : Nat) (s : ShowSettle) :
    disabledWrites (settleEvents now s) = [] := by
  rcases s with ok | ⟨n, m⟩
  · cases ok <;> rfl
  · simp only [settleEvents, showRejectionHandler, handleNotReadyToPay, showStatus]
    split
    · rfl
    · split <;> rfl

lemma statusWrites_showRejectionHandler (now : Nat) (n m : String) :
    statusWrites (showRejectionHandler now n m) =
      if n = "NotSupportedError" then []
      else if n = "AbortError" then [("Payment was cancelled.", "info")]
      else [("Payment failed: " ++ m, "error")] := by
  simp only [showRejectionHandler, handleNotReadyToPay, showStatus]
  split
  · simp [statusWrites]
  · split <;> simp [statusWrites]

lemma abortCalled_not_mem_settleEvents (now : Nat) (s : ShowSettle) :
    Event.abortCalled ∉ settleEvents now s := by
  rcases s with ok | ⟨n, m⟩
  · cases ok <;> simp [settleEvents, showFulfillHandler, processResponse, showStatus]
  · simp only [settleEvents, showRejectionHandler, handleNotReadyToPay, showStatus]
    split
    · simp
    · split <;> simp

/-- C1: on every settlement path (success, user cancellation, timeout,
deep-link fallback, presentation error, or probe error) the trigger control
is written `disabled := true` once at the start and `disabled := false`
exactly once at settlement, so it ends enabled and is never left
disabled. -/
theorem trigger_released_once (e : Env) (h : settlesAttempt e) :
    disabledWrites (onBuyClicked e) = [true, false] := by
  obtain ⟨h1, h2, h3⟩ := h
  rcases h3 with h3 | h3
  · have he : onBuyClicked e =
        [.consoleLog "Payment Request: request",
         .consoleLog "Payment Request: supportedInstruments",
         .consoleLog "Payment Request: details", .setDisabled true,
         .setStatus "Checking payment availability..." "info",
         .consoleLog "Error calling canMakePayment:",
         .setStatus "Error checking payment availability." "error",
         .setDisabled false] := by
      rw [onBuyClicked]; simp [h1, h2, h3, showStatus]
    rw [he]; rfl
  · rw [onBuyClicked_probe_true e h1 h2 h3]
    rcases ho : e.showOutcome with s | ⟨abortOk, late⟩
    · rw [showPaymentUI_settles, disabledWrites_append, disabledWrites_append,
          disabledWrites_settleEvents]
      rfl
    · rcases abortOk with _ | _
      · rw [showPaymentUI_timesOut_abortFail, disabledWrites_append,
            disabledWrites_append, disabledWrites_append, disabledWrites_settleEvents]
        rfl
      · rw [showPaymentUI_timesOut_abortOk]
        rfl

/-- Witness for C1 at a concrete settling attempt. -/
theorem trigger_released_once_witness :
    settlesAttempt successEnv ∧ disabledWrites (onBuyClicked successEnv) = [true, false] :=
  ⟨by decide, trigger_released_once successEnv (by decide)⟩


/-- C2 (counterexample): in the concrete attempt where the presentation is
still pending when the 20-minute timer fires and the abort succeeds, the
timer writes "Payment timed out." and the presentation rejection also
writes "Payment was cancelled." — both sides update the status for the same
attempt, so the mutual-exclusion claim fails. -/
theorem timer_and_presentation_both_write :
    ("Payment timed out.", "error") ∈ statusWrites (onBuyClicked timeoutEnv) ∧
    ("Payment was cancelled.", "info") ∈ statusWrites (onBuyClicked timeoutEnv) := by
  decide

/-- C2 (amended): when the presentation settles before the timer fires, the
timer is cancelled and never fires (no abort, so only the presentation side
writes status); but when the timer fires first and the abort succeeds, both
the timer ("Payment timed out.") and the presentation's `AbortError`
rejection ("Payment was cancelled.") write the status for the same
attempt. -/
theorem status_drivers (e : Env) (h1 : e.hasPaymentRequest = true)
    (h2 : e.constructError = none) (h3 : e.probe = .resolves true) :
    (∀ s, e.showOutcome = .settles s → Event.abortCalled ∉ onBuyClicked e) ∧
    (∀ late, e.showOutcome = .timesOut true late →
      ("Payment timed out.", "error") ∈ statusWrites (onBuyClicked e) ∧
      ("Payment was cancelled.", "info") ∈ statusWrites (onBuyClicked e)) := by
  constructor
  · intro s hs
    rw [onBuyClicked_probe_true e h1 h2 h3, hs, showPaymentUI_settles]
    simp [List.mem_append, abortCalled_not_mem_settleEvents e.now s]
  · intro late hl
    rw [onBuyClicked_probe_true e h1 h2 h3, hl, showPaymentUI_timesOut_abortOk]
    exact ⟨by decide, by decide⟩

/-- Witness for C2 (amended) at the concrete success and timeout
attempts. -/
theorem status_drivers_witness :
    Event.abortCalled ∉ onBuyClicked successEnv ∧
    ("Payment timed out.", "error") ∈ statusWrites (onBuyClicked timeoutEnv) :=
  ⟨(status_drivers successEnv rfl rfl rfl).1 (.resolved true) rfl,
   ((status_drivers timeoutEnv rfl rfl rfl).2 (.resolved true) rfl).1⟩

/-- C3 (counterexample): in the concrete timed-out attempt with a
successful abort the final status write is "Payment was cancelled." (info),
not "Payment timed out." (error). -/
theorem timeout_final_status_not_timed_out :
    lastStatus (onBuyClicked timeoutEnv) = some ("Payment was cancelled.", "info") ∧
    ¬ lastStatus (onBuyClicked timeoutEnv) = some ("Payment timed out.", "error") := by
  decide

/-- C3 (amended): if the presentation neither resolves nor rejects within
1,200,000 ms, the abort is invoked.  When it succeeds, "Payment timed out."
(error) is written and the trigger ends re-enabled, but the presentation's
`AbortError` rejection then writes "Payment was cancelled." (info), which
is the final status.  When the abort fails, the timer path makes no status
change (log only): the status writes are exactly the initial availability
check plus whatever the eventual settlement of the presentation writes. -/
theorem timeout_path_behavior (e : Env) (h1 : e.hasPaymentRequest = true)
    (h2 : e.constructError = none) (h3 : e.probe = .resolves true) :
    (∀ late, e.showOutcome = .timesOut true late →
       Event.abortCalled ∈ onBuyClicked e ∧
       ("Payment timed out.", "error") ∈ statusWrites (onBuyClicked e) ∧
       (disabledWrites (onBuyClicked e)).getLast? = some false ∧
       lastStatus (onBuyClicked e) = some ("Payment was cancelled.", "info")) ∧
    (∀ late, e.showOutcome = .timesOut false late →
       Event.abortCalled ∈ onBuyClicked e ∧
       statusWrites (onBuyClicked e) =
         ("Checking payment availability...", "info") ::
           statusWrites (settleEvents e.now late)) := by
  constructor
  · intro late hl
    rw [onBuyClicked_probe_true e h1 h2 h3, hl, showPaymentUI_timesOut_abortOk]
    exact ⟨by decide, by decide, by decide, by decide⟩
  · intro late hl
    rw [onBuyClicked_probe_true e h1 h2 h3, hl, showPaymentUI_timesOut_abortFail]
    constructor
    · simp [List.mem_append]
    · rw [statusWrites_append, statusWrites_append, statusWrites_append]
      simp [statusWrites]

/-- Witness for C3 (amended) at the concrete timed-out attempt. -/
theorem timeout_path_behavior_witness :
    Event.abortCalled ∈ onBuyClicked timeoutEnv ∧
    ("Payment timed out.", "error") ∈ statusWrites (onBuyClicked timeoutEnv) ∧
    (disabledWrites (onBuyClicked timeoutEnv)).getLast? = some false ∧
    lastStatus (onBuyClicked timeoutEnv) = some ("Payment was cancelled.", "info") :=
  (timeout_path_behavior timeoutEnv rfl rfl rfl).1 (.resolved true) rfl

/-- C4: when the timer fires and `request.abort()` succeeds, the
presentation promise rejects with an `AbortError` handled by the same
rejection branch as a user cancellation, so the status slot is also written
with "Payment was cancelled." at info severity; the handler's output on an
`AbortError` is independent of the error message, so it cannot distinguish
a timer-driven abort from a user abort. -/
theorem abort_rejection_indistinguishable (e : Env) (h1 : e.hasPaymentRequest = true)
    (h2 : e.constructError = none) (h3 : e.probe = .resolves true)
    (late : ShowSettle) (h4 : e.showOutcome = .timesOut true late) :
    ("Payment was cancelled.", "info") ∈ statusWrites (onBuyClicked e) ∧
    (∀ now msg, showRejectionHandler now "AbortError" msg =
      [Event.clearTimeoutCalled, Event.setStatus "Payment was cancelled." "info"]) := by
  constructor
  · rw [onBuyClicked_probe_true e h1 h2 h3, h4, showPaymentUI_timesOut_abortOk]
    decide
  · intro now msg
    rfl

/-- Witness for C4 at the concrete timed-out attempt. -/
theorem abort_rejection_indistinguishable_witness :
    ("Payment was cancelled.", "info") ∈ statusWrites (onBuyClicked timeoutEnv) ∧
    (∀ now msg, showRejectionHandler now "AbortError" msg =
      [Event.clearTimeoutCalled, Event.setStatus "Payment was cancelled." "info"]) :=
  abort_rejection_indistinguishable timeoutEnv rfl rfl rfl (.resolved true) rfl

/-- C5: a rejection of the presentation is classified by error name:
`NotSupportedError` degrades to the deep-link fallback (a navigation, and
no status write beyond the initial availability check); `AbortError`
reports "Payment was cancelled." with info severity; any other name reports
"Payment failed: " followed by the underlying message, with error
severity. -/
theorem rejection_classification (e : Env) (h1 : e.hasPaymentRequest = true)
    (h2 : e.constructError = none) (h3 : e.probe = .resolves true)
    (errName errMsg : String) (h4 : e.showOutcome = .settles (.rejected errName errMsg)) :
    (errName = "NotSupportedError" →
       deepLink e.now ∈ navigations (onBuyClicked e) ∧
       statusWrites (onBuyClicked e) = [("Checking payment availability...", "info")]) ∧
    (errName = "AbortError" →
       lastStatus (onBuyClicked e) = some ("Payment was cancelled.", "info")) ∧
    (errName ≠ "NotSupportedError" → errName ≠ "AbortError" →
       lastStatus (onBuyClicked e) = some ("Payment failed: " ++ errMsg, "error")) := by
  refine ⟨?_, ?_, ?_⟩
  · intro hn
    subst hn
    rw [onBuyClicked_probe_true e h1 h2 h3, h4, showPaymentUI_settles]
    have hs : settleEvents e.now (.rejected "NotSupportedError" errMsg) =
        [.clearTimeoutCalled, .navigate (deepLink e.now)] := rfl
    rw [hs]
    refine ⟨?_, rfl⟩
    simp [navigations]
  · intro hn
    subst hn
    rw [onBuyClicked_probe_true e h1 h2 h3, h4, showPaymentUI_settles]
    rfl
  · intro hn1 hn2
    rw [onBuyClicked_probe_true e h1 h2 h3, h4, showPaymentUI_settles]
    have hs : settleEvents e.now (.rejected errName errMsg) =
        showRejectionHandler e.now errName errMsg := rfl
    rw [hs, lastStatus, statusWrites_append, statusWrites_append,
        statusWrites_showRejectionHandler]
    simp [hn1, hn2, statusWrites]



def rejNotSupportedEnv : Env :=
  { hasPaymentRequest := true, constructError := none, probe := .resolves true,
    showOutcome := .settles (.rejected "NotSupportedError" "no instrument"), now := 7 }

def rejAbortEnv : Env :=
  { hasPaymentRequest := true, constructError := none, probe := .resolves true,
    showOutcome := .settles (.rejected "AbortError" "user dismissed"), now := 7 }

def rejOtherEnv : Env :=
  { hasPaymentRequest := true, constructError := none, probe := .resolves true,
    showOutcome := .settles (.rejected "TypeError" "boom"), now := 7 }

/-- Witness for C5 at three concrete rejected attempts, one per
branch. -/
theorem rejection_classification_witness :
    (deepLink rejNotSupportedEnv.now ∈ navigations (onBuyClicked rejNotSupportedEnv) ∧
     statusWrites (onBuyClicked rejNotSupportedEnv) =
       [("Checking payment availability...", "info")]) ∧
    lastStatus (onBuyClicked rejAbortEnv) = some ("Payment was cancelled.", "info") ∧
    lastStatus (onBuyClicked rejOtherEnv) = some ("Payment failed: " ++ "boom", "error") :=
  ⟨(rejection_classification rejNotSupportedEnv rfl rfl rfl _ _ rfl).1 rfl,
   (rejection_classification rejAbortEnv rfl rfl rfl _ _ rfl).2.1 rfl,
   (rejection_classification rejOtherEnv rfl rfl rfl _ _ rfl).2.2 (by decide) (by decide)⟩

/-- C6: when the capability probe resolves `false` the attempt ends
silently — `showPaymentUI` contributes no events at all, so no presentation
is initiated, no status write happens after the availability-check write,
no navigation happens, and the trigger's last write leaves it disabled. -/
theorem probe_false_silent (e : Env) (h1 : e.hasPaymentRequest = true)
    (h2 : e.constructError = none) (h3 : e.probe = .resolves false) :
    onBuyClicked e =
      [.consoleLog "Payment Request: request",
       .consoleLog "Payment Request: supportedInstruments",
       .consoleLog "Payment Request: details", .setDisabled true,
       .setStatus "Checking payment availability..." "info"] ∧
    showPaymentUI e.now false e.showOutcome = [] ∧
    (disabledWrites (onBuyClicked e)).getLast? = some true ∧
    navigations (onBuyClicked e) = [] := by
  have he : onBuyClicked e =
      [.consoleLog "Payment Request: request",
       .consoleLog "Payment Request: supportedInstruments",
       .consoleLog "Payment Request: details", .setDisabled true,
       .setStatus "Checking payment availability..." "info"] := by
    rw [onBuyClicked]
    simp [h1, h2, h3, showStatus, showPaymentUI]
  exact ⟨he, rfl, by rw [he]; rfl, by rw [he]; rfl⟩

/-- Witness for C6 at a concrete probe-false attempt. -/
theorem probe_false_silent_witness :
    (disabledWrites (onBuyClicked
      { hasPaymentRequest := true, constructError := none, probe := .resolves false,
        showOutcome := .settles (.resolved true), now := 0 })).getLast? = some true :=
  (probe_false_silent _ rfl rfl rfl).2.2.1

/-- C7: if construction of the payment request throws, the click handler
fails fast: the only events are the log and an error status whose text
contains the construction error's message, the trigger is never written
(hence still enabled, having been disabled only after successful
construction), and no probe, presentation or abort occurs. -/
theorem construction_failure_fails_fast (e : Env) (msg : String)
    (h1 : e.hasPaymentRequest = true) (h2 : e.constructError = some msg) :
    onBuyClicked e =
      [.consoleLog ("Payment Request Error: " ++ msg),
       .setStatus ("Payment Request Error: " ++ msg) "error"] ∧
    disabledWrites (onBuyClicked e) = [] ∧
    statusWrites (onBuyClicked e) = [("Payment Request Error: " ++ msg, "error")] ∧
    (∃ p, "Payment Request Error: " ++ msg = p ++ msg) ∧
    Event.abortCalled ∉ onBuyClicked e := by
  have he : onBuyClicked e =
      [.consoleLog ("Payment Request Error: " ++ msg),
       .setStatus ("Payment Request Error: " ++ msg) "error"] := by
    rw [onBuyClicked]
    simp [h1, h2, showStatus]
  refine ⟨he, by rw [he]; rfl, by rw [he]; rfl, ⟨"Payment Request Error: ", rfl⟩, ?_⟩
  rw [he]
  simp

/-- Witness for C7 at a concrete construction failure. -/
theorem construction_failure_fails_fast_witness :
    disabledWrites (onBuyClicked
      { hasPaymentRequest := true, constructError := some "bad data",
        probe := .resolves true, showOutcome := .settles (.resolved true),
        now := 0 }) = [] :=
  (construction_failure_fails_fast _ "bad data" rfl rfl).2.1

/-- C8: if the browser lacks `PaymentRequest` entirely, clicking the
trigger writes "Web payments are not supported in this browser." with error
severity and returns without constructing a request: no other event, in
particular no trigger write, occurs. -/
theorem no_payment_request_support (e : Env) (h : e.hasPaymentRequest = false) :
    onBuyClicked e =
      [.consoleLog "Web payments are not supported in this browser.",
       .setStatus "Web payments are not supported in this browser." "error"] ∧
    disabledWrites (onBuyClicked e) = [] := by
  have he : onBuyClicked e =
      [.consoleLog "Web payments are not supported in this browser.",
       .setStatus "Web payments are not supported in this browser." "error"] := by
    rw [onBuyClicked]
    simp [h, showStatus]
  exact ⟨he, by rw [he]; rfl⟩

/-- Witness for C8 at a concrete attempt without `PaymentRequest`. -/
theorem no_payment_request_support_witness :
    disabledWrites (onBuyClicked
      { hasPaymentRequest := false, constructError := none,
        probe := .resolves true, showOutcome := .settles (.resolved true),
        now := 0 }) = [] :=
  (no_payment_request_support _ rfl).2

/-- C9: the transaction reference is the constant tag "TXN" concatenated
with the decimal rendering of the current wall-clock timestamp, and two
attempts started at different timestamps get distinct references. -/
theorem transaction_reference_distinct (t1 t2 : Nat) (h : t1 ≠ t2) :
    generateTransactionReferenceID t1 = "TXN" ++ natToString t1 ∧
    generateTransactionReferenceID t1 ≠ generateTransactionReferenceID t2 := by
  refine ⟨rfl, fun hc => h ?_⟩
  apply natToString_inj
  have hd := congrArg String.data hc
  rw [generateTransactionReferenceID, generateTransactionReferenceID,
      String.data_append, String.data_append] at hd
  exact String.ext (List.append_cancel_left hd)

/-- Witness for C9 at two concrete timestamps. -/
theorem transaction_reference_distinct_witness :
    generateTransactionReferenceID 1700000000000 = "TXN" ++ natToString 1700000000000 ∧
    generateTransactionReferenceID 1700000000000 ≠ generateTransactionReferenceID 1700000000001 :=
  transaction_reference_distinct 1700000000000 1700000000001 (by decide)

/-- C10: the deep-link fallback always navigates to
`gpay://upi/pay?pa=<urlencoded payee>&pn=<urlencoded name>&am=<amount>&cu=INR&tr=<reference>`
with the payee address and name percent-encoded (the concrete merchant
values encode to `9110190178%40okbizaxis` and `Ms.%20Priya%20Kumari`) and a
non-empty transaction reference. -/
theorem deep_link_format (now : Nat) :
    deepLink now =
      "gpay://upi/pay?pa=" ++ encodeURIComponent MERCHANT_CONFIG.pa ++
      "&pn=" ++ encodeURIComponent MERCHANT_CONFIG.pn ++
      "&am=" ++ AMOUNT ++ "&cu=INR&tr=" ++ generateTransactionReferenceID now ∧
    encodeURIComponent MERCHANT_CONFIG.pa = "9110190178%40okbizaxis" ∧
    encodeURIComponent MERCHANT_CONFIG.pn = "Ms.%20Priya%20Kumari" ∧
    generateTransactionReferenceID now ≠ "" ∧
    handleNotReadyToPay now = [.navigate (deepLink now)] := by
  refine ⟨rfl, by decide, by decide, ?_, rfl⟩
  intro h
  have hd := congrArg String.data h
  rw [generateTransactionReferenceID, String.data_append] at hd
  simp at hd

end GPay
